import Mathlib

/-!
Shallow embedding of the MMM (media-mix-model) training and artifact-serving
subsystem of the `agent-python-backend` service, together with theorems that
settle the frozen claims about it.

Embedded source functions:
* `train_and_cache_mmm` and `train_and_cache_mmm_job`
  (`agents/data_science_agent.py`),
* the `_adstock` / `_saturation` compatibility wrappers (same file),
* `job_status_endpoint` (`GET /jobs/{job_id}`) and `get_mmm_plots`
  (`GET /mmm/plots`) from `main.py`.

Modelling conventions:
* A pandas DataFrame is a list of columns; a column carries its label, a
  numeric-dtype flag, and — for non-numeric columns — whether
  `to_numpy(dtype=float)` on its (NaN-filled) values succeeds, together with
  the exception text when it does not.  Cell values themselves flow only into
  the external scaling/sampling library and are therefore not represented.
* External effects (`lightweight_mmm` import, scaler fitting, MCMC fitting,
  posterior metrics, pickling, JSON dump, plotting) are oracles in a
  `TrainEnv` record: each is an `Except String` outcome, the error carrying
  the exception message the call would raise.
* Filesystem writes are recorded as a list of `FsWrite` events; paths are
  segment lists rooted at the configured `DATA_DIR`.
* Python `str` operations (`lower`, `endswith`, `split`, `sorted`,
  `os.path.basename`, `os.path.splitext`) are re-implemented structurally on
  `String.data` so that the kernel can evaluate them; they agree with the
  Python semantics on the ASCII identifiers this code manipulates.
-/

deriving instance DecidableEq for Except

namespace ReimaginedInd

/-! ## String utilities (structural models of the Python `str` operations) -/

/-- ASCII lower-casing of one character, as `str.lower` does on ASCII. -/
def lowerChar (c : Char) : Char :=
  if 'A' ≤ c ∧ c ≤ 'Z' then Char.ofNat (c.toNat + 32) else c

/-- `s.lower()` (ASCII fragment). -/
def strLower (s : String) : String := ⟨s.data.map lowerChar⟩

/-- `s.endswith(suff)`. -/
def strEndsWith (s suff : String) : Bool := suff.data.isSuffixOf s.data

def splitSlashAux : List Char → List Char → List String
  | [], acc => [⟨acc.reverse⟩]
  | c :: rest, acc =>
    if c = '/' then ⟨acc.reverse⟩ :: splitSlashAux rest []
    else splitSlashAux rest (c :: acc)

/-- `s.split("/")`. -/
def splitSlash (s : String) : List String := splitSlashAux s.data []

/-- `"/".join(segs)` / `os.path.join` over slash-free segments. -/
def joinSlash (segs : List String) : String :=
  match segs with
  | [] => ""
  | s :: rest => rest.foldl (fun acc t => acc ++ "/" ++ t) s

/-- Code-point comparison of character lists (Python string `<=`). -/
def listCharLe : List Char → List Char → Bool
  | [], _ => true
  | _ :: _, [] => false
  | a :: as, b :: bs =>
    if a.toNat < b.toNat then true
    else if b.toNat < a.toNat then false
    else listCharLe as bs

def strLeB (a b : String) : Bool := listCharLe a.data b.data

def insertSorted (x : String) : List String → List String
  | [] => [x]
  | y :: ys => if strLeB x y then x :: y :: ys else y :: insertSorted x ys

/-- Python `sorted` on a list of strings (insertion sort). -/
def sortStrings (l : List String) : List String := l.foldr insertSorted []

/-- `os.path.basename` for POSIX paths: the part after the last `/`. -/
def pyBasename (s : String) : String := (splitSlash s).getLastD ""

/-- The root part of `os.path.splitext(name)` for a slash-free `name`:
the string is cut at its last dot, provided some non-dot character
precedes that dot (so `.bashrc` and `..b` keep their dots). -/
def splitextRoot (name : String) : String :=
  let cs := name.data
  let qualifying := (List.range cs.length).filter fun i =>
    (cs.getD i ' ' == '.') && ((List.range i).any fun j => cs.getD j ' ' != '.')
  match qualifying.getLast? with
  | some i => ⟨cs.take i⟩
  | none => name

/-! ## Data model: DataFrames -/

/-- One pandas column: its label, whether its dtype is numeric
(`select_dtypes(include="number")` keeps it), and for non-numeric columns
the exception message that `.fillna(0.0).to_numpy(dtype=float)` raises,
`none` when the conversion succeeds.  Numeric columns always convert. -/
structure Column where
  name : String
  isNumeric : Bool
  toFloatErr : Option String
deriving DecidableEq, Repr

/-- A DataFrame is its ordered list of columns. -/
abbrev DataFrame := List Column

/-- `df.select_dtypes(include="number").columns`, as columns. -/
def numericCols (df : DataFrame) : List Column := df.filter (·.isNumeric)

/-! ## Column-role inference (`train_and_cache_mmm`, lines 117–145) -/

/-- The fixed candidate list for the target column, in priority order. -/
def candidateTargets : List String := ["sales", "revenue", "y", "target"]

/-- The nested candidate loop: for each candidate name in order, the first
column whose lower-cased label equals it; the first hit wins. -/
def findNameMatch (df : DataFrame) : Option String :=
  (candidateTargets.filterMap fun cand =>
    (df.find? fun c => strLower c.name == cand).map Column.name).head?

def noNumericMsg : String := "No numeric columns found for target."

/-- Target-column inference: candidate-name match first, else the first
numeric column, else the explicit no-numeric-columns error (an early
`return {"error": ...}` in the source). -/
def inferTarget (df : DataFrame) : Except String String :=
  match findNameMatch df with
  | some t => .ok t
  | none =>
    match (numericCols df).head? with
    | some c => .ok c.name
    | none => .error noNumericMsg

/-- `c.lower().endswith("_spend")`. -/
def isSpendCol (c : Column) : Bool := strEndsWith (strLower c.name) "_spend"

/-- Media-column inference: all columns (of any dtype) whose lower-cased
label ends in `_spend`, excluding the target; if none match, all numeric
columns except the target. -/
def inferMedia (df : DataFrame) (target_col : String) : List String :=
  let spend := (df.filter fun c => isSpendCol c && c.name != target_col).map Column.name
  if spend.isEmpty then
    ((numericCols df).filter fun c => c.name != target_col).map Column.name
  else spend

/-- Extra-feature inference: numeric columns not in `media_cols + [target_col]`. -/
def inferExtra (df : DataFrame) (media_cols : List String) (target_col : String) :
    List String :=
  ((numericCols df).map Column.name).filter fun n => !((media_cols ++ [target_col]).contains n)

/-- `df[[...]].fillna(0.0).to_numpy(dtype=float)` on one column: numeric
dtypes convert; object columns raise their recorded conversion error. -/
def colToFloat (c : Column) : Except String Unit :=
  if c.isNumeric then .ok ()
  else
    match c.toFloatErr with
    | none => .ok ()
    | some m => .error m

/-- Conversion of a named column selection, first failure wins.  The names
are always labels of `df` when called from the training routine. -/
def colsToFloat (df : DataFrame) : List String → Except String Unit
  | [] => .ok ()
  | n :: rest =>
    match df.find? fun c => c.name == n with
    | none => colsToFloat df rest
    | some c =>
      match colToFloat c with
      | .error m => .error m
      | .ok _ => colsToFloat df rest

/-! ## The training routine `train_and_cache_mmm` -/

/-- Oracle record for the external effects of one training call, in source
order.  Each `Except String Unit` field is the outcome of the corresponding
library call: `.ok ()` when the call returns, `.error m` when it raises an
exception whose text is `m`. -/
structure TrainEnv where
  /-- Outcome of `import numpy / jax.numpy / lightweight_mmm` (lines 108–114). -/
  importsOk : Except String Unit
  /-- `os.getenv("DATA_DIR", "./data")`, taken as an opaque root segment. -/
  data_dir : String
  /-- `datetime.utcnow().strftime("%Y%m%d%H%M%S")` of this run. -/
  timestamp : String
  /-- The four `CustomScaler` constructions and `fit_transform` calls. -/
  scaleResult : Except String Unit
  /-- `mmm.fit(...)` (the NumPyro sampling). -/
  fitResult : Except String Unit
  /-- `pickle.dump` of the fitted model (including the `open(..., "wb")`). -/
  pickleOk : Except String Unit
  /-- `mmm.get_posterior_metrics()`: the per-channel effect and ROI lists. -/
  metricsResult : Except String (List Rat × List Rat)
  /-- `json.dump` of the diagnostics record. -/
  diagWriteOk : Except String Unit
  /-- `plot.plot_media_channel_posteriors` + `savefig`. -/
  plotPosterior : Except String Unit
  /-- `plot.plot_response_curves` + `savefig`. -/
  plotResponse : Except String Unit
  /-- `plot.plot_bars_media_metrics` (effect) + `savefig`. -/
  plotEffect : Except String Unit
  /-- `plot.plot_bars_media_metrics` (ROI) + `savefig`. -/
  plotRoi : Except String Unit

/-- The `diagnostics.json` record. -/
structure Diagnostics where
  media_cols : List String
  extra_cols : List String
  target_col : String
  media_effect_hat : List Rat
  roi_hat : List Rat
deriving DecidableEq, Repr

/-- The success dictionary returned by `train_and_cache_mmm`. -/
structure TrainSuccess where
  model_id : String
  plots : List (String × String)
  diagnostics : Diagnostics
deriving DecidableEq, Repr

/-- The returned dictionary: either the success payload or a dict with a
single `error` key. -/
inductive TrainResult
  | ok (payload : TrainSuccess)
  | error (msg : String)
deriving DecidableEq, Repr

/-- One filesystem side effect; paths are segment lists whose head is the
`DATA_DIR` value. -/
inductive FsWrite
  | mkdir (path : List String)
  | file (path : List String)
deriving DecidableEq, Repr

/-- `os.path.splitext(os.path.basename(str(project_id or "dataset")))[0]`
(line 182): the artifact directory is named from `project_id`, the empty
(falsy) string defaulting to `"dataset"`. -/
def datasetNameOf (project_id : String) : String :=
  splitextRoot (pyBasename (if project_id == "" then "dataset" else project_id))

/-- `<DATA_DIR>/models/<dataset_name>/<timestamp>` as path segments. -/
def modelDirOf (project_id : String) (env : TrainEnv) : List String :=
  [env.data_dir, "models", datasetNameOf project_id, env.timestamp]

/-- The embedding of `train_and_cache_mmm` (lines 73–240): returns the
result dictionary together with the filesystem writes performed.  The
`location` and `model_name` parameters of the source are unused by it
and omitted.  Control flow is the source's: the heavy-import failure and
the no-numeric-columns check are early returns with their own messages;
every other exception is caught by the outer handler and wrapped as
`"MMM training failed: " ++ message`, keeping the writes already made. -/
def train_and_cache_mmm (df : DataFrame) (project_id : String) (env : TrainEnv) :
    TrainResult × List FsWrite :=
  match env.importsOk with
  | .error e => (.error ("lightweight_mmm unavailable: " ++ e), [])
  | .ok _ =>
    match inferTarget df with
    | .error msg => (.error msg, [])
    | .ok target_col =>
      let media_cols := inferMedia df target_col
      let extra_cols := inferExtra df media_cols target_col
      match colsToFloat df media_cols with
      | .error e => (.error ("MMM training failed: " ++ e), [])
      | .ok _ =>
        match colsToFloat df [target_col] with
        | .error e => (.error ("MMM training failed: " ++ e), [])
        | .ok _ =>
          match colsToFloat df extra_cols with
          | .error e => (.error ("MMM training failed: " ++ e), [])
          | .ok _ =>
            match env.scaleResult with
            | .error e => (.error ("MMM training failed: " ++ e), [])
            | .ok _ =>
              match env.fitResult with
              | .error e => (.error ("MMM training failed: " ++ e), [])
              | .ok _ =>
                let dataset_name := datasetNameOf project_id
                let model_dir := modelDirOf project_id env
                let w1 : List FsWrite := [.mkdir model_dir]
                match env.pickleOk with
                | .error e => (.error ("MMM training failed: " ++ e), w1)
                | .ok _ =>
                  let w2 := w1 ++ [FsWrite.file (model_dir ++ ["model.pkl"])]
                  match env.metricsResult with
                  | .error e => (.error ("MMM training failed: " ++ e), w2)
                  | .ok (eff, roi) =>
                    let diagnostics : Diagnostics :=
                      { media_cols := media_cols, extra_cols := extra_cols,
                        target_col := target_col,
                        media_effect_hat := eff, roi_hat := roi }
                    match env.diagWriteOk with
                    | .error e => (.error ("MMM training failed: " ++ e), w2)
                    | .ok _ =>
                      let w3 := w2 ++ [FsWrite.file (model_dir ++ ["diagnostics.json"])]
                      match env.plotPosterior with
                      | .error e => (.error ("MMM training failed: " ++ e), w3)
                      | .ok _ =>
                        let w4 := w3 ++ [FsWrite.file (model_dir ++ ["posterior.png"])]
                        match env.plotResponse with
                        | .error e => (.error ("MMM training failed: " ++ e), w4)
                        | .ok _ =>
                          let w5 := w4 ++ [FsWrite.file (model_dir ++ ["response_curves.png"])]
                          match env.plotEffect with
                          | .error e => (.error ("MMM training failed: " ++ e), w5)
                          | .ok _ =>
                            let w6 := w5 ++ [FsWrite.file (model_dir ++ ["media_effect.png"])]
                            match env.plotRoi with
                            | .error e => (.error ("MMM training failed: " ++ e), w6)
                            | .ok _ =>
                              let w7 := w6 ++ [FsWrite.file (model_dir ++ ["roi.png"])]
                              let relDir := "models/" ++ dataset_name ++ "/" ++ env.timestamp ++ "/"
                              (.ok { model_id := dataset_name ++ "/" ++ env.timestamp,
                                     plots := [("posterior", relDir ++ "posterior.png"),
                                               ("response_curves", relDir ++ "response_curves.png"),
                                               ("media_effect", relDir ++ "media_effect.png"),
                                               ("roi", relDir ++ "roi.png")],
                                     diagnostics := diagnostics }, w7)

/-- The file paths among a write trace. -/
def writtenFiles (ws : List FsWrite) : List (List String) :=
  ws.filterMap fun w =>
    match w with
    | .file p => some p
    | .mkdir _ => none

/-- The directories created in a write trace. -/
def madeDirs (ws : List FsWrite) : List (List String) :=
  ws.filterMap fun w =>
    match w with
    | .mkdir p => some p
    | .file _ => none

/-- `train_and_cache_mmm_job` (lines 243–254): resolves the dataset file
under `DATA_DIR`, loads it via the CSV reader and delegates to
`train_and_cache_mmm`, forwarding `project_id` unchanged.  `location` and
`model_name` are forwarded but unused. -/
def train_and_cache_mmm_job (dataset_filename project_id _location _model_name : String)
    (readCsv : String → DataFrame) (env : TrainEnv) : TrainResult × List FsWrite :=
  let filepath := env.data_dir ++ "/" ++ dataset_filename
  train_and_cache_mmm (readCsv filepath) project_id env

/-! ## HTTP layer: job-status poller and plot lister (`main.py`) -/

/-- The `HTTPException`s raised by the embedded endpoints. -/
inductive HttpError
  | badRequest (detail : String)
  | notFound (detail : String)
  | serverError (detail : String)
deriving DecidableEq, Repr

/-- RQ job states reachable through the broker. -/
inductive JobStatus
  | queued
  | started
  | finished
  | failed
deriving DecidableEq, Repr

def JobStatus.asString : JobStatus → String
  | .queued => "queued"
  | .started => "started"
  | .finished => "finished"
  | .failed => "failed"

/-- The broker-side state of one job: its status, the return value of the
job function (read once finished), and the exception text (read once
failed). -/
structure JobRecord where
  status : JobStatus
  result : String
  exc_info : String
deriving DecidableEq, Repr

/-- The response body of `GET /jobs/{job_id}`. -/
structure JobStatusPayload where
  status : String
  result : Option String
  error : Option String
deriving DecidableEq, Repr

/-- `job_status_endpoint` (`main.py` lines 333–344).  The broker is a map
from job id to job record (`Job.fetch`); `configured` models the
`all([mmm_queue, redis_conn, Job])` guard. -/
def job_status_endpoint (configured : Bool) (broker : String → Option JobRecord)
    (job_id : String) : Except HttpError JobStatusPayload :=
  if !configured then .error (.serverError "Job queue not configured.")
  else
    match broker job_id with
    | none => .error (.notFound "Job not found.")
    | some job =>
      .ok { status := job.status.asString,
            result := if job.status = .finished then some job.result else none,
            error := if job.status = .failed then some job.exc_info else none }

/-! ## Plot lister `GET /mmm/plots` (`main.py` lines 346–372) -/

/-- POSIX path normalisation of relative segment lists, as the operating
system resolves the path handed to `os.path.isdir` / `os.listdir`:
empty and `.` segments vanish, `..` pops the previous segment or is kept
when there is nothing left to pop. -/
def normSegs (segs : List String) : List String :=
  segs.foldl
    (fun acc s =>
      if s = "" ∨ s = "." then acc
      else if s = ".." then
        match acc.getLast? with
        | some l => if l = ".." then acc ++ [".."] else acc.dropLast
        | none => [".."]
      else acc ++ [s])
    []

/-- The directory `os.path.join(DATA_DIR, "models", *model_id.split("/"))`
resolves to, as normalised segments relative to `DATA_DIR`. -/
def resolveModelDir (model_id : String) : List String :=
  normSegs ("models" :: splitSlash model_id)

/-- Whether a resolved path stays inside `<DATA_DIR>/models`. -/
def underModels (segs : List String) : Bool :=
  match segs with
  | "models" :: _ => true
  | _ => false

/-- `f.lower().endswith(".png")`. -/
def isPng (f : String) : Bool := strEndsWith (strLower f) ".png"

/-- The URL built for one plot file: `/data/` plus the path relative to
`DATA_DIR`. -/
def plotUrl (dirSegs : List String) (fname : String) : String :=
  "/data/" ++ joinSlash (dirSegs ++ [fname])

/-- The response body of `GET /mmm/plots`. -/
structure PlotsPayload where
  model_id : String
  plots : List (String × String)
deriving DecidableEq, Repr

/-- `get_mmm_plots`: the filesystem `fs` maps a directory path (normalised
segments relative to `DATA_DIR`) to its file listing, `none` when the
directory does not exist. -/
def get_mmm_plots (fs : List String → Option (List String)) (model_id : String) :
    Except HttpError PlotsPayload :=
  if model_id == "" || !(model_id.data.contains '/') then
    .error (.badRequest "model_id must be in the form <dataset>/<timestamp>")
  else
    let dirSegs := resolveModelDir model_id
    match fs dirSegs with
    | none => .error (.notFound ("Model " ++ model_id ++ " not found."))
    | some files =>
      let plot_files := files.filter isPng
      if plot_files.isEmpty then
        .error (.notFound ("No plots found for model " ++ model_id ++ "."))
      else
        .ok { model_id := model_id,
              plots := (sortStrings plot_files).map fun f => (f, plotUrl dirSegs f) }

/-! ## Compatibility wrappers `_adstock` / `_saturation` (lines 30–70) -/

/-- The `lightweight_mmm.preprocessing` module surface the wrappers probe:
each field is `some f` when the module has that attribute.  A transform
takes the first positional argument and either returns a value or raises. -/
structure PreprocModule (α : Type) where
  transform_adstock : Option (α → Except String α)
  apply_adstock : Option (α → Except String α)
  transform_saturation : Option (α → Except String α)
  apply_saturation : Option (α → Except String α)

/-- The attribute probing in `_adstock`: `transform_adstock` first, then
`apply_adstock`. -/
def pickAdstockFn {α : Type} (m : PreprocModule α) : Option (α → Except String α) :=
  match m.transform_adstock with
  | some f => some f
  | none => m.apply_adstock

/-- The attribute probing in `_saturation`. -/
def pickSaturationFn {α : Type} (m : PreprocModule α) : Option (α → Except String α) :=
  match m.transform_saturation with
  | some f => some f
  | none => m.apply_saturation

/-- `_adstock(*args)`: call the module transform when one is found; on a
missing module, a missing attribute, a raising call, or an empty argument
list (the call itself then raises inside the `try`), fall back to
`args[0] if args else None`. -/
def adstockWrapper {α : Type} (preprocessing : Option (PreprocModule α))
    (args : List α) : Option α :=
  match preprocessing with
  | none => args.head?
  | some m =>
    match pickAdstockFn m with
    | none => args.head?
    | some f =>
      match args with
      | [] => none
      | x :: _ =>
        match f x with
        | .ok y => some y
        | .error _ => some x

/-- `_saturation(*args)`, same shape as `_adstock`. -/
def saturationWrapper {α : Type} (preprocessing : Option (PreprocModule α))
    (args : List α) : Option α :=
  match preprocessing with
  | none => args.head?
  | some m =>
    match pickSaturationFn m with
    | none => args.head?
    | some f =>
      match args with
      | [] => none
      | x :: _ =>
        match f x with
        | .ok y => some y
        | .error _ => some x

/-! ## Concrete fixtures -/

/-- The spec's scenario dataset
`{sales:[100,120,130,150], tv_spend:[10,15,20,25], radio_spend:[5,7,6,9]}`:
three numeric columns (cell values flow only into the external sampler,
which the `TrainEnv` oracle models). -/
def dfScenario : DataFrame :=
  [{ name := "sales", isNumeric := true, toFloatErr := none },
   { name := "tv_spend", isNumeric := true, toFloatErr := none },
   { name := "radio_spend", isNumeric := true, toFloatErr := none }]

/-- An environment in which every external call succeeds. -/
def envOk : TrainEnv :=
  { importsOk := .ok (), data_dir := "DATA", timestamp := "20250101000000",
    scaleResult := .ok (), fitResult := .ok (), pickleOk := .ok (),
    metricsResult := .ok ([1, 2], [3, 4]),
    diagWriteOk := .ok (), plotPosterior := .ok (), plotResponse := .ok (),
    plotEffect := .ok (), plotRoi := .ok () }

/-- A DataFrame whose only column is a numeric one named `sales`. -/
def dfOnlyTargetNumeric : DataFrame :=
  [{ name := "sales", isNumeric := true, toFloatErr := none }]

/-- A DataFrame whose only column is a non-numeric `sales` column of
strings that do not parse as floats. -/
def dfTextSales : DataFrame :=
  [{ name := "sales", isNumeric := false,
     toFloatErr := some "could not convert string to float: 'abc'" }]

/-- A DataFrame with one non-numeric column whose name matches no target
candidate. -/
def dfNoRoles : DataFrame :=
  [{ name := "notes", isNumeric := false, toFloatErr := none }]

/-- `envOk` with the heavy imports failing. -/
def envNoLib : TrainEnv :=
  { envOk with importsOk := .error "No module named lightweight_mmm" }

/-- The last path segment of each file written in a trace. -/
def baseNames (ws : List FsWrite) : List String :=
  (writtenFiles ws).map (·.getLastD "")

/-- A one-directory filesystem fixture for the plot lister. -/
def fsOneModel : List String → Option (List String) :=
  fun segs => if segs = ["models", "ds", "t1"] then some ["b.txt", "a.png"] else none

/-- A preprocessing module whose transforms always raise. -/
def failingModule : PreprocModule Nat :=
  { transform_adstock := some fun _ => .error "boom",
    apply_adstock := none,
    transform_saturation := some fun _ => .error "boom",
    apply_saturation := none }

/-- A broker holding exactly one finished job. -/
def brokerOneJob : String → Option JobRecord :=
  fun i => if i = "job-1" then
    some { status := .finished, result := "done", exc_info := "" } else none

/-! ## Helper lemmas on the column-role inference -/

theorem findNameMatch_eq_none_iff (df : DataFrame) :
    findNameMatch df = none ↔ ∀ c ∈ df, strLower c.name ∉ candidateTargets := by
  unfold findNameMatch
  rw [List.head?_eq_none_iff, List.filterMap_eq_nil_iff]
  constructor
  · intro h c hc hmem
    have := h (strLower c.name) hmem
    rw [Option.map_eq_none', List.find?_eq_none] at this
    exact absurd (beq_self_eq_true (strLower c.name)) (by simpa using this c hc)
  · intro h cand hcand
    rw [Option.map_eq_none', List.find?_eq_none]
    intro c hc hbeq
    exact h c hc (by rwa [← eq_of_beq hbeq] at hcand)

theorem findNameMatch_some_mem (df : DataFrame) (t : String)
    (h : findNameMatch df = some t) : ∃ c ∈ df, c.name = t := by
  unfold findNameMatch at h
  have ht : t ∈ candidateTargets.filterMap fun cand =>
      (df.find? fun c => strLower c.name == cand).map Column.name := by
    exact List.mem_of_mem_head? (by simp [h])
  rw [List.mem_filterMap] at ht
  obtain ⟨cand, _, hcand⟩ := ht
  rw [Option.map_eq_some'] at hcand
  obtain ⟨c, hfind, hname⟩ := hcand
  exact ⟨c, List.mem_of_find?_eq_some hfind, hname⟩

theorem inferTarget_error_msg (df : DataFrame) (m : String)
    (h : inferTarget df = .error m) : m = noNumericMsg := by
  unfold inferTarget at h
  rcases hm : findNameMatch df with _ | t
  · rw [hm] at h
    rcases hn : (numericCols df).head? with _ | c
    · rw [hn] at h
      simpa using h.symm
    · rw [hn] at h
      simp at h
  · rw [hm] at h
    simp at h

theorem inferTarget_error_iff (df : DataFrame) :
    inferTarget df = .error noNumericMsg ↔
      (∀ c ∈ df, strLower c.name ∉ candidateTargets) ∧ ∀ c ∈ df, c.isNumeric = false := by
  unfold inferTarget
  constructor
  · intro h
    rcases hm : findNameMatch df with _ | t
    · rw [hm] at h
      rcases hn : (numericCols df).head? with _ | c
      · refine ⟨(findNameMatch_eq_none_iff df).mp hm, ?_⟩
        rw [List.head?_eq_none_iff] at hn
        intro c hc
        by_contra hnum
        have : c ∈ numericCols df := List.mem_filter.mpr ⟨hc, by simpa using hnum⟩
        simp [hn] at this
      · rw [hn] at h
        simp at h
    · rw [hm] at h
      simp at h
  · rintro ⟨hname, hnum⟩
    rw [(findNameMatch_eq_none_iff df).mpr hname]
    have hnil : numericCols df = [] := by
      unfold numericCols
      rw [List.filter_eq_nil_iff]
      intro c hc
      simp [hnum c hc]
    rw [hnil]
    rfl

theorem inferTarget_ok_mem (df : DataFrame) (t : String)
    (h : inferTarget df = .ok t) : ∃ c ∈ df, c.name = t := by
  unfold inferTarget at h
  rcases hm : findNameMatch df with _ | s
  · rw [hm] at h
    rcases hn : (numericCols df).head? with _ | c
    · rw [hn] at h
      simp [noNumericMsg] at h
    · rw [hn] at h
      simp only [Except.ok.injEq] at h
      have hc : c ∈ numericCols df := List.mem_of_mem_head? (by simp [hn])
      exact ⟨c, (List.mem_filter.mp hc).1, h⟩
  · rw [hm] at h
    simp only [Except.ok.injEq] at h
    obtain ⟨c, hc, hn⟩ := findNameMatch_some_mem df s hm
    exact ⟨c, hc, by rw [hn, h]⟩

theorem inferTarget_ok_total (df : DataFrame)
    (h : (∃ c ∈ df, strLower c.name ∈ candidateTargets) ∨ ∃ c ∈ df, c.isNumeric = true) :
    ∃ t, inferTarget df = .ok t := by
  rcases he : inferTarget df with m | t
  · have hm := inferTarget_error_msg df m he
    rw [hm] at he
    rw [inferTarget_error_iff df] at he
    rcases h with ⟨c, hc, hcand⟩ | ⟨c, hc, hnum⟩
    · exact absurd hcand (he.1 c hc)
    · exact absurd hnum (by simp [he.2 c hc])
  · exact ⟨t, rfl⟩

theorem inferMedia_mem_iff (df : DataFrame) (t n : String) :
    n ∈ inferMedia df t ↔
      n ≠ t ∧ ((∃ c ∈ df, c.name = n ∧ isSpendCol c = true) ∨
        ((∀ c ∈ df, isSpendCol c = true → c.name = t) ∧
          ∃ c ∈ df, c.name = n ∧ c.isNumeric = true)) := by
  unfold inferMedia
  by_cases hsp : (df.filter fun c => isSpendCol c && c.name != t) = []
  · rw [List.filter_eq_nil_iff] at hsp
    have hspB : ∀ c ∈ df, isSpendCol c = true → c.name = t := by
      intro c hc hs
      have := hsp c hc
      simp [hs] at this
      exact this
    simp only [List.isEmpty_iff, List.map_eq_nil_iff, List.filter_eq_nil_iff]
    rw [if_pos (by intro c hc; simpa using hsp c hc)]
    rw [List.mem_map]
    constructor
    · rintro ⟨c, hc, hn⟩
      rw [List.mem_filter] at hc
      obtain ⟨hcn, hne⟩ := hc
      unfold numericCols at hcn
      rw [List.mem_filter] at hcn
      refine ⟨by simpa [hn] using hne, Or.inr ⟨hspB, c, hcn.1, hn, by simpa using hcn.2⟩⟩
    · rintro ⟨hne, ⟨c, hc, hn, hs⟩ | ⟨_, c, hc, hn, hnum⟩⟩
      · exact absurd (hspB c hc hs) (hn ▸ hne)
      · exact ⟨c, List.mem_filter.mpr ⟨List.mem_filter.mpr ⟨hc, by simp [hnum]⟩,
          by simpa [hn] using hne⟩, hn⟩
  · rw [if_neg (by simpa [List.isEmpty_iff, List.map_eq_nil_iff] using hsp)]
    rw [List.mem_map]
    constructor
    · rintro ⟨c, hc, hn⟩
      rw [List.mem_filter] at hc
      obtain ⟨hcdf, hcond⟩ := hc
      rw [Bool.and_eq_true] at hcond
      refine ⟨by simpa [hn] using hcond.2, Or.inl ⟨c, hcdf, hn, hcond.1⟩⟩
    · rintro ⟨hne, ⟨c, hc, hn, hs⟩ | ⟨hall, c, hc, hn, _⟩⟩
      · exact ⟨c, List.mem_filter.mpr ⟨hc, by simp [hs, hn]; simpa [hn] using hne⟩, hn⟩
      · rw [List.filter_eq_nil_iff] at hsp
        push_neg at hsp
        obtain ⟨d, hd, hcond⟩ := hsp
        rw [Bool.and_eq_true] at hcond
        have hcond' : isSpendCol d = true ∧ d.name ≠ t := by
          constructor
          · exact hcond.1
          · simpa using hcond.2
        exact absurd (hall d hd hcond'.1) hcond'.2

/-! ## Case analysis of the training routine -/

/-- Exhaustive case analysis of one `train_and_cache_mmm` call: the result
is either the success payload together with the full artifact write
sequence, or one of the three error dicts (library unavailable,
no-numeric-columns, wrapped exception) with the writes made before the
failure point. -/
theorem train_cases (df : DataFrame) (project_id : String) (env : TrainEnv) :
    (∃ e, train_and_cache_mmm df project_id env =
      (.error ("lightweight_mmm unavailable: " ++ e), [])) ∨
    train_and_cache_mmm df project_id env = (.error noNumericMsg, []) ∨
    (∃ e ws, train_and_cache_mmm df project_id env =
      (.error ("MMM training failed: " ++ e), ws)) ∨
    (∃ t eff roi, inferTarget df = .ok t ∧ env.metricsResult = .ok (eff, roi) ∧
      train_and_cache_mmm df project_id env =
        (.ok { model_id := datasetNameOf project_id ++ "/" ++ env.timestamp,
               plots := [("posterior",
                           "models/" ++ datasetNameOf project_id ++ "/" ++ env.timestamp
                             ++ "/" ++ "posterior.png"),
                         ("response_curves",
                           "models/" ++ datasetNameOf project_id ++ "/" ++ env.timestamp
                             ++ "/" ++ "response_curves.png"),
                         ("media_effect",
                           "models/" ++ datasetNameOf project_id ++ "/" ++ env.timestamp
                             ++ "/" ++ "media_effect.png"),
                         ("roi",
                           "models/" ++ datasetNameOf project_id ++ "/" ++ env.timestamp
                             ++ "/" ++ "roi.png")],
               diagnostics := { media_cols := inferMedia df t,
                                extra_cols := inferExtra df (inferMedia df t) t,
                                target_col := t,
                                media_effect_hat := eff, roi_hat := roi } },
         [.mkdir (modelDirOf project_id env),
          .file (modelDirOf project_id env ++ ["model.pkl"]),
          .file (modelDirOf project_id env ++ ["diagnostics.json"]),
          .file (modelDirOf project_id env ++ ["posterior.png"]),
          .file (modelDirOf project_id env ++ ["response_curves.png"]),
          .file (modelDirOf project_id env ++ ["media_effect.png"]),
          .file (modelDirOf project_id env ++ ["roi.png"])])) := by
  rcases h0 : env.importsOk with e | u0
  · exact Or.inl ⟨e, by simp only [train_and_cache_mmm, h0]⟩
  · rcases ht : inferTarget df with m | t
    · have hmsg := inferTarget_error_msg df m ht
      subst hmsg
      exact Or.inr (Or.inl (by simp only [train_and_cache_mmm, h0, ht]))
    · rcases h1 : colsToFloat df (inferMedia df t) with e | u1
      · exact Or.inr (Or.inr (Or.inl ⟨e, [],
          by simp only [List.cons_append, List.nil_append, train_and_cache_mmm, h0, ht, h1]⟩))
      · rcases h2 : colsToFloat df [t] with e | u2
        · exact Or.inr (Or.inr (Or.inl ⟨e, [],
            by simp only [List.cons_append, List.nil_append, train_and_cache_mmm, h0, ht, h1, h2]⟩))
        · rcases h3 : colsToFloat df (inferExtra df (inferMedia df t) t) with e | u3
          · exact Or.inr (Or.inr (Or.inl ⟨e, [],
              by simp only [List.cons_append, List.nil_append, train_and_cache_mmm, h0, ht, h1, h2, h3]⟩))
          · rcases h4 : env.scaleResult with e | u4
            · exact Or.inr (Or.inr (Or.inl ⟨e, [],
                by simp only [List.cons_append, List.nil_append, train_and_cache_mmm, h0, ht, h1, h2, h3, h4]⟩))
            · rcases h5 : env.fitResult with e | u5
              · exact Or.inr (Or.inr (Or.inl ⟨e, [],
                  by simp only [List.cons_append, List.nil_append, train_and_cache_mmm, h0, ht, h1, h2, h3, h4, h5]⟩))
              · rcases h6 : env.pickleOk with e | u6
                · exact Or.inr (Or.inr (Or.inl ⟨e, [.mkdir (modelDirOf project_id env)],
                    by simp only [List.cons_append, List.nil_append, train_and_cache_mmm, h0, ht, h1, h2, h3, h4, h5, h6]⟩))
                · rcases h7 : env.metricsResult with e | ⟨eff, roi⟩
                  · exact Or.inr (Or.inr (Or.inl ⟨e,
                      [.mkdir (modelDirOf project_id env),
                       .file (modelDirOf project_id env ++ ["model.pkl"])],
                      by simp only [List.cons_append, List.nil_append, train_and_cache_mmm, h0, ht, h1, h2, h3, h4, h5, h6, h7]⟩))
                  · rcases h8 : env.diagWriteOk with e | u8
                    · exact Or.inr (Or.inr (Or.inl ⟨e,
                        [.mkdir (modelDirOf project_id env),
                         .file (modelDirOf project_id env ++ ["model.pkl"])],
                        by simp only [List.cons_append, List.nil_append, train_and_cache_mmm, h0, ht, h1, h2, h3, h4, h5, h6,
                          h7, h8]⟩))
                    · rcases h9 : env.plotPosterior with e | u9
                      · exact Or.inr (Or.inr (Or.inl ⟨e,
                          [.mkdir (modelDirOf project_id env),
                           .file (modelDirOf project_id env ++ ["model.pkl"]),
                           .file (modelDirOf project_id env ++ ["diagnostics.json"])],
                          by simp only [List.cons_append, List.nil_append, train_and_cache_mmm, h0, ht, h1, h2, h3, h4, h5, h6,
                            h7, h8, h9]⟩))
                      · rcases h10 : env.plotResponse with e | u10
                        · exact Or.inr (Or.inr (Or.inl ⟨e,
                            [.mkdir (modelDirOf project_id env),
                             .file (modelDirOf project_id env ++ ["model.pkl"]),
                             .file (modelDirOf project_id env ++ ["diagnostics.json"]),
                             .file (modelDirOf project_id env ++ ["posterior.png"])],
                            by simp only [List.cons_append, List.nil_append, train_and_cache_mmm, h0, ht, h1, h2, h3, h4, h5,
                              h6, h7, h8, h9, h10]⟩))
                        · rcases h11 : env.plotEffect with e | u11
                          · exact Or.inr (Or.inr (Or.inl ⟨e,
                              [.mkdir (modelDirOf project_id env),
                               .file (modelDirOf project_id env ++ ["model.pkl"]),
                               .file (modelDirOf project_id env ++ ["diagnostics.json"]),
                               .file (modelDirOf project_id env ++ ["posterior.png"]),
                               .file (modelDirOf project_id env ++ ["response_curves.png"])],
                              by simp only [List.cons_append, List.nil_append, train_and_cache_mmm, h0, ht, h1, h2, h3, h4, h5,
                                h6, h7, h8, h9, h10, h11]⟩))
                          · rcases h12 : env.plotRoi with e | u12
                            · exact Or.inr (Or.inr (Or.inl ⟨e,
                                [.mkdir (modelDirOf project_id env),
                                 .file (modelDirOf project_id env ++ ["model.pkl"]),
                                 .file (modelDirOf project_id env ++ ["diagnostics.json"]),
                                 .file (modelDirOf project_id env ++ ["posterior.png"]),
                                 .file (modelDirOf project_id env ++ ["response_curves.png"]),
                                 .file (modelDirOf project_id env ++ ["media_effect.png"])],
                                by simp only [List.cons_append, List.nil_append, train_and_cache_mmm, h0, ht, h1, h2, h3, h4,
                                  h5, h6, h7, h8, h9, h10, h11, h12]⟩))
                            · exact Or.inr (Or.inr (Or.inr ⟨t, eff, roi, rfl, rfl,
                                by simp only [List.cons_append, List.nil_append, train_and_cache_mmm, h0, ht, h1, h2, h3, h4,
                                  h5, h6, h7, h8, h9, h10, h11, h12]⟩))

/-! ## Claim C1 -/

/-- C1, counterexample.  The claim fails on two points.  (a) For
`dfOnlyTargetNumeric` — one numeric column named `sales` and nothing else —
inference selects `sales` as target but the media set is empty, although the
DataFrame has a numeric column.  (b) For `dfTextSales` — a single non-numeric
column named `sales` — no column is numeric, yet the function does not return
the no-numeric-columns error: the name match on `sales` wins first, and
training later fails with a float-conversion message instead. -/
theorem C1_counterexample :
    (inferTarget dfOnlyTargetNumeric = .ok "sales" ∧
      (∃ c ∈ dfOnlyTargetNumeric, c.isNumeric = true) ∧
      inferMedia dfOnlyTargetNumeric "sales" = []) ∧
    ((∀ c ∈ dfTextSales, c.isNumeric = false) ∧
      inferTarget dfTextSales = .ok "sales" ∧
      (train_and_cache_mmm dfTextSales "proj" envOk).1 =
        .error "MMM training failed: could not convert string to float: 'abc'" ∧
      (train_and_cache_mmm dfTextSales "proj" envOk).1 ≠ .error noNumericMsg) := by
  refine ⟨⟨by decide, by decide, by decide⟩, by decide, by decide, by decide, by decide⟩

/-- C1, amended: inference selects exactly one existing column as target
whenever some column name lower-cases to a candidate name or some column is
numeric (candidate order first, else first numeric column); the
no-numeric-columns error is returned exactly when neither holds; the media
set consists of the non-target columns ending in `_spend`, else the
non-target numeric columns, and may be empty. -/
theorem C1_amended (df : DataFrame) :
    (((∃ c ∈ df, strLower c.name ∈ candidateTargets) ∨ ∃ c ∈ df, c.isNumeric = true) →
      ∃ t, inferTarget df = .ok t ∧ ∃ c ∈ df, c.name = t) ∧
    (inferTarget df = .error noNumericMsg ↔
      (∀ c ∈ df, strLower c.name ∉ candidateTargets) ∧ ∀ c ∈ df, c.isNumeric = false) ∧
    (∀ t n, n ∈ inferMedia df t ↔
      n ≠ t ∧ ((∃ c ∈ df, c.name = n ∧ isSpendCol c = true) ∨
        ((∀ c ∈ df, isSpendCol c = true → c.name = t) ∧
          ∃ c ∈ df, c.name = n ∧ c.isNumeric = true))) := by
  refine ⟨?_, inferTarget_error_iff df, inferMedia_mem_iff df⟩
  intro h
  obtain ⟨t, ht⟩ := inferTarget_ok_total df h
  exact ⟨t, ht, inferTarget_ok_mem df t ht⟩

/-- C1, witness: the amended theorem applied to the scenario DataFrame and
to a DataFrame with neither numeric columns nor candidate names. -/
theorem C1_amended_witness :
    (∃ t, inferTarget dfScenario = .ok t ∧ ∃ c ∈ dfScenario, c.name = t) ∧
    inferTarget dfNoRoles = .error noNumericMsg ∧
    "tv_spend" ∈ inferMedia dfScenario "sales" := by
  refine ⟨(C1_amended dfScenario).1
      (Or.inl ⟨{ name := "sales", isNumeric := true, toFloatErr := none },
        by decide, by decide⟩), ?_, ?_⟩
  · exact (C1_amended dfNoRoles).2.1.mpr ⟨by decide, by decide⟩
  · exact ((C1_amended dfScenario).2.2 "sales" "tv_spend").mpr
      ⟨by decide, Or.inl ⟨{ name := "tv_spend", isNumeric := true, toFloatErr := none },
        by decide, by decide⟩⟩

/-! ## Claim C3 -/

/-- C3, counterexample.  Two DataFrames with no numeric column on which
`train_and_cache_mmm` does not return
`{"error": "No numeric columns found for target."}`: `dfTextSales` (the name
match on `sales` precedes the numeric fallback, so training proceeds and
fails at float conversion) and `dfNoRoles` when the `lightweight_mmm` import
fails (the unavailability error precedes the column scan). -/
theorem C3_counterexample :
    ((∀ c ∈ dfTextSales, c.isNumeric = false) ∧
      (train_and_cache_mmm dfTextSales "proj" envOk).1 =
        .error "MMM training failed: could not convert string to float: 'abc'" ∧
      (train_and_cache_mmm dfTextSales "proj" envOk).1 ≠ .error noNumericMsg) ∧
    ((∀ c ∈ dfNoRoles, c.isNumeric = false) ∧
      (train_and_cache_mmm dfNoRoles "proj" envNoLib).1 =
        .error "lightweight_mmm unavailable: No module named lightweight_mmm" ∧
      (train_and_cache_mmm dfNoRoles "proj" envNoLib).1 ≠ .error noNumericMsg) := by
  exact ⟨⟨by decide, by decide, by decide⟩, by decide, by decide, by decide⟩

/-- C3, amended: when the heavy imports succeed, for every DataFrame in
which no column is numeric *and no column name lower-cases to a target
candidate*, `train_and_cache_mmm` returns exactly the no-numeric-columns
error dict and performs no filesystem write (the check precedes
`os.makedirs`, so the write trace is empty). -/
theorem C3_amended (df : DataFrame) (project_id : String) (env : TrainEnv)
    (himp : env.importsOk = .ok ())
    (hnum : ∀ c ∈ df, c.isNumeric = false)
    (hname : ∀ c ∈ df, strLower c.name ∉ candidateTargets) :
    train_and_cache_mmm df project_id env = (.error noNumericMsg, []) := by
  have ht : inferTarget df = .error noNumericMsg :=
    (inferTarget_error_iff df).mpr ⟨hname, hnum⟩
  unfold train_and_cache_mmm
  rw [himp, ht]

/-- C3, witness: the amended theorem applied to `dfNoRoles` and `envOk`. -/
theorem C3_amended_witness :
    train_and_cache_mmm dfNoRoles "proj" envOk = (.error noNumericMsg, []) :=
  C3_amended dfNoRoles "proj" envOk rfl (by decide) (by decide)

/-! ## Claim C6 -/

/-- C6: the claim is **false of the code** (the spec's intent is keying by
dataset name).  The background job forwards `project_id` — not the submitted
dataset filename — into the directory-name derivation
(`os.path.splitext(os.path.basename(str(project_id or "dataset")))[0]`), so
a job for `sales.csv` with project `braidai` persists under
`braidai/<timestamp>` and returns `model_id = "braidai/<timestamp>"`,
not `"sales/<timestamp>"`. -/
theorem C6_job_keys_by_project_id :
    (∃ p, (train_and_cache_mmm_job "sales.csv" "braidai" "us-central1" "gemini-2.5-pro"
        (fun _ => dfScenario) envOk).1 = .ok p ∧
      p.model_id = "braidai/20250101000000" ∧
      p.model_id ≠ "sales/20250101000000") ∧
    datasetNameOf "braidai" = "braidai" ∧
    datasetNameOf "sales.csv" = "sales" ∧
    madeDirs (train_and_cache_mmm_job "sales.csv" "braidai" "us-central1" "gemini-2.5-pro"
        (fun _ => dfScenario) envOk).2 = [["DATA", "models", "braidai", "20250101000000"]] := by
  refine ⟨⟨_, rfl, by decide, by decide⟩, by decide, by decide, by decide⟩

/-! ## Claim C2 -/

/-- C2: for every DataFrame, `project_id` and outcome of every external
call — that is, whatever exception any stage (data preparation, scaling,
fitting, artifact writing, plotting) raises — the function returns a
dictionary: either the success payload or one of the three error dicts
(library unavailable, no numeric columns, wrapped training exception).  No
case propagates an exception to the caller. -/
theorem C2_all_exceptions_caught (df : DataFrame) (project_id : String) (env : TrainEnv) :
    (∃ p, (train_and_cache_mmm df project_id env).1 = .ok p) ∨
    (train_and_cache_mmm df project_id env).1 = .error noNumericMsg ∨
    (∃ e, (train_and_cache_mmm df project_id env).1 =
      .error ("lightweight_mmm unavailable: " ++ e)) ∨
    (∃ e, (train_and_cache_mmm df project_id env).1 =
      .error ("MMM training failed: " ++ e)) := by
  rcases train_cases df project_id env with ⟨e, h⟩ | h | ⟨e, ws, h⟩ | ⟨t, eff, roi, _, _, h⟩
  · exact Or.inr (Or.inr (Or.inl ⟨e, congrArg Prod.fst h⟩))
  · exact Or.inr (Or.inl (congrArg Prod.fst h))
  · exact Or.inr (Or.inr (Or.inr ⟨e, congrArg Prod.fst h⟩))
  · exact Or.inl ⟨_, congrArg Prod.fst h⟩

/-! ## Claim C4 -/

/-- C4, counterexample: a finished (successful) training run whose artifact
directory holds **six** files — the claim's four plot files and
`diagnostics.json`, but also `model.pkl`, which the claim excludes. -/
theorem C4_counterexample :
    (∃ p, (train_and_cache_mmm dfScenario "mmm_small.csv" envOk).1 = .ok p) ∧
    baseNames (train_and_cache_mmm dfScenario "mmm_small.csv" envOk).2 =
      ["model.pkl", "diagnostics.json", "posterior.png", "response_curves.png",
       "media_effect.png", "roi.png"] ∧
    "model.pkl" ∈ baseNames (train_and_cache_mmm dfScenario "mmm_small.csv" envOk).2 ∧
    "model.pkl" ∉ ["posterior.png", "response_curves.png", "media_effect.png", "roi.png",
      "diagnostics.json"] := by
  exact ⟨⟨_, rfl⟩, by decide, by decide, by decide⟩

/-- C4, amended: after every successful training run the artifact directory
`<DATA_DIR>/models/<dataset_name>/<timestamp>/` contains exactly **six**
files — `model.pkl`, `diagnostics.json` and the four named plots — and the
run creates exactly that one directory. -/
theorem C4_amended (df : DataFrame) (project_id : String) (env : TrainEnv)
    (p : TrainSuccess) (h : (train_and_cache_mmm df project_id env).1 = .ok p) :
    (train_and_cache_mmm df project_id env).2 =
      [.mkdir (modelDirOf project_id env),
       .file (modelDirOf project_id env ++ ["model.pkl"]),
       .file (modelDirOf project_id env ++ ["diagnostics.json"]),
       .file (modelDirOf project_id env ++ ["posterior.png"]),
       .file (modelDirOf project_id env ++ ["response_curves.png"]),
       .file (modelDirOf project_id env ++ ["media_effect.png"]),
       .file (modelDirOf project_id env ++ ["roi.png"])] := by
  rcases train_cases df project_id env with ⟨e, hq⟩ | hq | ⟨e, ws, hq⟩ |
    ⟨t, eff, roi, _, _, hq⟩
  · rw [hq] at h
    simp at h
  · rw [hq] at h
    simp at h
  · rw [hq] at h
    simp at h
  · rw [hq]

/-- C4, witness: the amended theorem applied to a concrete successful run. -/
theorem C4_amended_witness :
    (train_and_cache_mmm dfScenario "mmm_small.csv" envOk).2 =
      [.mkdir (modelDirOf "mmm_small.csv" envOk),
       .file (modelDirOf "mmm_small.csv" envOk ++ ["model.pkl"]),
       .file (modelDirOf "mmm_small.csv" envOk ++ ["diagnostics.json"]),
       .file (modelDirOf "mmm_small.csv" envOk ++ ["posterior.png"]),
       .file (modelDirOf "mmm_small.csv" envOk ++ ["response_curves.png"]),
       .file (modelDirOf "mmm_small.csv" envOk ++ ["media_effect.png"]),
       .file (modelDirOf "mmm_small.csv" envOk ++ ["roi.png"])] :=
  C4_amended dfScenario "mmm_small.csv" envOk
    { model_id := "mmm_small/20250101000000",
      plots := [("posterior", "models/mmm_small/20250101000000/posterior.png"),
                ("response_curves", "models/mmm_small/20250101000000/response_curves.png"),
                ("media_effect", "models/mmm_small/20250101000000/media_effect.png"),
                ("roi", "models/mmm_small/20250101000000/roi.png")],
      diagnostics := { media_cols := ["tv_spend", "radio_spend"], extra_cols := [],
                       target_col := "sales",
                       media_effect_hat := [1, 2], roi_hat := [3, 4] } }
    (by decide)

/-! ## Claim C8 -/

/-- C8: on the scenario DataFrame (`sales`, `tv_spend`, `radio_spend`, all
numeric), inference selects `sales` as target and exactly
`tv_spend, radio_spend` as media columns, and whenever every external call
of the modeling library succeeds the run finishes with a diagnostics record
whose `media_cols` is `["tv_spend", "radio_spend"]`. -/
theorem C8_scenario (project_id : String) (env : TrainEnv)
    (him : env.importsOk = .ok ()) (hsc : env.scaleResult = .ok ())
    (hfit : env.fitResult = .ok ()) (hpk : env.pickleOk = .ok ())
    (eff roi : List Rat) (hm : env.metricsResult = .ok (eff, roi))
    (hdw : env.diagWriteOk = .ok ()) (hp1 : env.plotPosterior = .ok ())
    (hp2 : env.plotResponse = .ok ()) (hp3 : env.plotEffect = .ok ())
    (hp4 : env.plotRoi = .ok ()) :
    inferTarget dfScenario = .ok "sales" ∧
    inferMedia dfScenario "sales" = ["tv_spend", "radio_spend"] ∧
    ∃ p, (train_and_cache_mmm dfScenario project_id env).1 = .ok p ∧
      p.diagnostics.target_col = "sales" ∧
      p.diagnostics.media_cols = ["tv_spend", "radio_spend"] ∧
      p.diagnostics.extra_cols = [] := by
  refine ⟨by decide, by decide, ?_⟩
  obtain ⟨io, dd, ts, sc, fit, pk, met, dw, q1, q2, q3, q4⟩ := env
  dsimp only at him hsc hfit hpk hm hdw hp1 hp2 hp3 hp4
  subst him hsc hfit hpk hm hdw hp1 hp2 hp3 hp4
  exact ⟨_, rfl, rfl, rfl, rfl⟩

/-- C8, witness: the theorem applied to the all-successful environment. -/
theorem C8_scenario_witness :
    inferTarget dfScenario = .ok "sales" ∧
    inferMedia dfScenario "sales" = ["tv_spend", "radio_spend"] ∧
    ∃ p, (train_and_cache_mmm dfScenario "mmm_small.csv" envOk).1 = .ok p ∧
      p.diagnostics.target_col = "sales" ∧
      p.diagnostics.media_cols = ["tv_spend", "radio_spend"] ∧
      p.diagnostics.extra_cols = [] :=
  C8_scenario "mmm_small.csv" envOk rfl rfl rfl rfl [1, 2] [3, 4] rfl rfl rfl rfl rfl rfl

/-! ## Claim C5 -/

/-- C5: with the queue configured, polling an unknown job id returns the
not-found error, and polling an existing job returns its status string,
the result payload exactly when the job is finished (null otherwise), and
the error text exactly when the job is failed (null otherwise). -/
theorem C5_job_status (broker : String → Option JobRecord) (job_id : String) :
    (broker job_id = none →
      job_status_endpoint true broker job_id = .error (.notFound "Job not found.")) ∧
    (∀ j, broker job_id = some j →
      ∃ p, job_status_endpoint true broker job_id = .ok p ∧
        p.status = j.status.asString ∧
        (j.status = .finished → p.result = some j.result) ∧
        (j.status ≠ .finished → p.result = none) ∧
        (j.status = .failed → p.error = some j.exc_info) ∧
        (j.status ≠ .failed → p.error = none)) := by
  constructor
  · intro h
    simp [job_status_endpoint, h]
  · intro j h
    refine ⟨{ status := j.status.asString,
              result := if j.status = .finished then some j.result else none,
              error := if j.status = .failed then some j.exc_info else none },
      by simp [job_status_endpoint, h], rfl, ?_, ?_, ?_, ?_⟩
    · intro hf
      simp [hf]
    · intro hf
      simp [hf]
    · intro hf
      simp [hf]
    · intro hf
      simp [hf]

/-- C5, witness: the theorem applied to an empty broker and to a
single-finished-job broker. -/
theorem C5_job_status_witness :
    job_status_endpoint true (fun _ => none) "missing" =
      .error (.notFound "Job not found.") ∧
    ∃ p, job_status_endpoint true brokerOneJob "job-1" = .ok p ∧
      p.status = JobStatus.finished.asString ∧
      (JobStatus.finished = .finished → p.result = some "done") ∧
      (JobStatus.finished ≠ .finished → p.result = none) ∧
      (JobStatus.finished = .failed → p.error = some "") ∧
      (JobStatus.finished ≠ .failed → p.error = none) :=
  ⟨(C5_job_status (fun _ => none) "missing").1 rfl,
   (C5_job_status brokerOneJob "job-1").2
     { status := .finished, result := "done", exc_info := "" } (by decide)⟩

/-! ## Helper lemmas on `sortStrings` -/

theorem mem_insertSorted (x y : String) (l : List String) :
    y ∈ insertSorted x l ↔ y = x ∨ y ∈ l := by
  induction l with
  | nil => simp [insertSorted]
  | cons h t ih =>
    simp only [insertSorted]
    split
    · simp [List.mem_cons]
    · simp only [List.mem_cons, ih]
      tauto

theorem mem_sortStrings (y : String) (l : List String) :
    y ∈ sortStrings l ↔ y ∈ l := by
  induction l with
  | nil => simp [sortStrings]
  | cons h t ih =>
    simp only [sortStrings, List.foldr_cons] at ih ⊢
    rw [mem_insertSorted]
    simp [ih]

/-! ## Claim C7 -/

/-- C7: the plot lister returns bad-request on an empty or separator-free
`model_id`; otherwise not-found when the resolved directory is missing or
holds no file with a case-insensitive `.png` suffix; otherwise the payload
carries `model_id` and exactly the name/URL pairs of the PNG files. -/
theorem C7_plot_lister (fs : List String → Option (List String)) (model_id : String) :
    ((model_id = "" ∨ model_id.data.contains '/' = false) →
      get_mmm_plots fs model_id =
        .error (.badRequest "model_id must be in the form <dataset>/<timestamp>")) ∧
    (model_id ≠ "" → model_id.data.contains '/' = true →
      (fs (resolveModelDir model_id) = none →
        get_mmm_plots fs model_id =
          .error (.notFound ("Model " ++ model_id ++ " not found."))) ∧
      ∀ files, fs (resolveModelDir model_id) = some files →
        ((∀ f ∈ files, isPng f = false) →
          get_mmm_plots fs model_id =
            .error (.notFound ("No plots found for model " ++ model_id ++ "."))) ∧
        ((∃ f ∈ files, isPng f = true) →
          ∃ p, get_mmm_plots fs model_id = .ok p ∧ p.model_id = model_id ∧
            (∀ f ∈ files, isPng f = true →
              (f, plotUrl (resolveModelDir model_id) f) ∈ p.plots) ∧
            ∀ q ∈ p.plots, ∃ f ∈ files, isPng f = true ∧
              q = (f, plotUrl (resolveModelDir model_id) f))) := by
  constructor
  · rintro (h | h)
    · simp [get_mmm_plots, h]
    · have hm : '/' ∉ model_id.data := by simpa using h
      simp [get_mmm_plots, hm]
  · intro h1 h2
    have hb : (model_id == "") = false := by simp [h1]
    have h2m : '/' ∈ model_id.data := by simpa using h2
    constructor
    · intro hf
      simp [get_mmm_plots, hb, h2m, hf]
    · intro files hf
      constructor
      · intro hnone
        have hempty : files.filter isPng = [] := by
          rw [List.filter_eq_nil_iff]
          intro f hmem
          simp [hnone f hmem]
        simp [get_mmm_plots, hb, h2m, hf, hempty]
      · rintro ⟨f0, hf0, hpng0⟩
        have hne : files.filter isPng ≠ [] := by
          rw [Ne, List.filter_eq_nil_iff]
          push_neg
          exact ⟨f0, hf0, by simp [hpng0]⟩
        refine ⟨{ model_id := model_id,
                  plots := (sortStrings (files.filter isPng)).map
                    fun f => (f, plotUrl (resolveModelDir model_id) f) },
          ?_, rfl, ?_, ?_⟩
        · simp only [get_mmm_plots, hb, h2m, hf]
          simp [get_mmm_plots, hb, h2m, hf, List.isEmpty_iff, hne]
        · intro f hfm hp
          rw [List.mem_map]
          exact ⟨f, (mem_sortStrings f _).mpr (List.mem_filter.mpr ⟨hfm, hp⟩), rfl⟩
        · intro q hq
          rw [List.mem_map] at hq
          obtain ⟨f, hfm, hqe⟩ := hq
          rw [mem_sortStrings] at hfm
          rw [List.mem_filter] at hfm
          exact ⟨f, hfm.1, hfm.2, hqe.symm⟩

/-- C7, witness: the theorem applied to a one-directory filesystem holding
one PNG and one non-PNG file. -/
theorem C7_plot_lister_witness :
    ∃ p, get_mmm_plots fsOneModel "ds/t1" = .ok p ∧ p.model_id = "ds/t1" ∧
      (∀ f ∈ ["b.txt", "a.png"], isPng f = true →
        (f, plotUrl (resolveModelDir "ds/t1") f) ∈ p.plots) ∧
      ∀ q ∈ p.plots, ∃ f ∈ ["b.txt", "a.png"], isPng f = true ∧
        q = (f, plotUrl (resolveModelDir "ds/t1") f) :=
  (((C7_plot_lister fsOneModel "ds/t1").2 (by decide) (by decide)).2
    ["b.txt", "a.png"] (by decide)).2 ⟨"a.png", by decide, by decide⟩

/-! ## Claim C9 -/

/-- C9: the compatibility wrappers act as the identity on their first
argument whenever the preprocessing module is missing or the selected
transform call raises, and return `None` when called with no positional
arguments. -/
theorem C9_wrapper_identity {α : Type} (x : α) (m : PreprocModule α)
    (f : α → Except String α) (e : String) :
    adstockWrapper (none : Option (PreprocModule α)) [x] = some x ∧
    saturationWrapper (none : Option (PreprocModule α)) [x] = some x ∧
    adstockWrapper (none : Option (PreprocModule α)) [] = none ∧
    saturationWrapper (none : Option (PreprocModule α)) [] = none ∧
    (pickAdstockFn m = some f → f x = .error e →
      adstockWrapper (some m) [x] = some x) ∧
    (pickSaturationFn m = some f → f x = .error e →
      saturationWrapper (some m) [x] = some x) := by
  refine ⟨rfl, rfl, rfl, rfl, ?_, ?_⟩
  · intro hp hf
    simp [adstockWrapper, hp, hf]
  · intro hp hf
    simp [saturationWrapper, hp, hf]

/-- C9, witness: the theorem applied to a module whose transforms raise. -/
theorem C9_wrapper_identity_witness :
    adstockWrapper (some failingModule) [5] = some 5 ∧
    saturationWrapper (some failingModule) [5] = some 5 :=
  ⟨(C9_wrapper_identity 5 failingModule (fun _ => .error "boom") "boom").2.2.2.2.1 rfl rfl,
   (C9_wrapper_identity 5 failingModule (fun _ => .error "boom") "boom").2.2.2.2.2 rfl rfl⟩

/-! ## Claim C10 -/

/-- C10: the plot lister's validation accepts every non-empty `model_id`
containing a `/` — including multi-segment and `..` identifiers — and the
`../../etc/passwd` identifier resolves to a directory outside
`<DATA_DIR>/models` (indeed outside `DATA_DIR`), while a three-segment
identifier resolves three levels under `models`: the endpoint is not
restricted to the two-level `dataset/timestamp` hierarchy. -/
theorem C10_traversal_accepted :
    (∀ model_id : String, model_id ≠ "" → model_id.data.contains '/' = true →
      ∀ fs d, get_mmm_plots fs model_id ≠ .error (.badRequest d)) ∧
    resolveModelDir "../../etc/passwd" = ["..", "etc", "passwd"] ∧
    underModels (resolveModelDir "../../etc/passwd") = false ∧
    splitSlash "a/b/c" = ["a", "b", "c"] ∧
    resolveModelDir "a/b/c" = ["models", "a", "b", "c"] ∧
    underModels (resolveModelDir "ds/t1") = true := by
  refine ⟨?_, by decide, by decide, by decide, by decide, by decide⟩
  intro model_id h1 h2 fs d
  have hb : (model_id == "") = false := by simp [h1]
  have h2m : '/' ∈ model_id.data := by simpa using h2
  rcases hf : fs (resolveModelDir model_id) with _ | files
  · simp [get_mmm_plots, hb, h2m, hf]
  · by_cases hempty : files.filter isPng = []
    · simp [get_mmm_plots, hb, h2m, hf, hempty]
    · simp [get_mmm_plots, hb, h2m, hf, List.isEmpty_iff, hempty]

/-- C10, witness: validation lets a traversal identifier through to the
directory lookup (a not-found, never a bad-request). -/
theorem C10_traversal_accepted_witness :
    get_mmm_plots (fun _ => none) "../../etc/passwd" ≠
      .error (.badRequest "model_id must be in the form <dataset>/<timestamp>") :=
  C10_traversal_accepted.1 "../../etc/passwd" (by decide) (by decide) (fun _ => none) _

end ReimaginedInd
